import Mathlib

/-
Verification of the netscan plugin (volatility/framework/plugins/windows/netscan.py).

The development shallowly embeds the plugin code: the memory reads performed through
the framework (version structures, symbol tables, pool scanning) are inputs to the
embedded functions, and the Python control flow of the plugin itself is translated
directly. Definitions carrying a doc comment starting with "Modelled from the spec:"
stand for code of collaborating modules (network symbol extensions, pool scanner,
framework constants) that is outside the plugin file; they follow the specification
text for those collaborators.
-/

namespace NetscanSpec

/-- Python runtime errors the embedded code paths can raise. -/
inductive PyError
  | typeError
  | nameError
  | unboundLocalError
  deriving DecidableEq

/-- The two class-type tables the plugin can select: network.class_types (general)
or network.win10_x64_class_types (selected for win10 x64 only). -/
inductive ClassTypes
  | general
  | win10x64
  deriving DecidableEq

/-- The architecture string computed from symbol_table_is_64bit at the top of
determine_tcpip_version. -/
def archOf (is_64bit : Bool) : String :=
  if is_64bit then "x64" else "x86"

/-- Shallow embedding of NetScan.determine_tcpip_version. The framework reads are
inputs: is_64bit is symbol_table_is_64bit, layer_is_intel tells whether the primary
layer is an Intel layer (line 103 raises TypeError otherwise), vers_minor_version is
the build number read from the _DBGKD_GET_VERSION64 MinorVersion field, and
nt_major_version / nt_minor_version are the _KUSER_SHARED_DATA NtMajorVersion /
NtMinorVersion fields. The Python code compares the decimal string forms of the two
KUSER values; for the unsigned integers read there that is equivalent to the numeric
comparison used here. The fallback branch (line 172) formats with the undefined
variable major_version and therefore raises NameError; when nt_major_version is 6
and nt_minor_version is none of 0..3 the local filename is never assigned, so the
debug logging at line 174 raises UnboundLocalError. -/
def determine_tcpip_version (is_64bit layer_is_intel : Bool)
    (vers_minor_version nt_major_version nt_minor_version : Nat) :
    Except PyError (String × ClassTypes) :=
  let arch := archOf is_64bit
  if layer_is_intel = false then
    Except.error PyError.typeError
  else if nt_major_version = 10 then
    let class_types := if arch = "x64" then ClassTypes.win10x64 else ClassTypes.general
    if vers_minor_version < 14393 then
      Except.ok ("netscan-win10-" ++ arch, class_types)
    else if vers_minor_version < 15063 then
      if arch = "x64" then
        Except.ok ("netscan-win10-x64", class_types)
      else
        Except.ok ("netscan-win10-14393-x86", class_types)
    else
      Except.ok ("netscan-win10-15063-" ++ arch, class_types)
  else if nt_major_version = 6 then
    if nt_minor_version = 0 then
      Except.ok ("netscan-vista-" ++ arch, ClassTypes.general)
    else if nt_minor_version = 1 then
      Except.ok ("netscan-win7-" ++ arch, ClassTypes.general)
    else if nt_minor_version = 2 then
      Except.ok ("netscan-win8-" ++ arch, ClassTypes.general)
    else if nt_minor_version = 3 then
      Except.ok ("netscan-win81-" ++ arch, ClassTypes.general)
    else
      Except.error PyError.unboundLocalError
  else
    Except.error PyError.nameError

/-- Modelled from the spec: the NONPAGED flag of the pool scanner PoolType bitset
(the pool scanner module is outside the plugin file). A single bit distinct from FREE. -/
def PoolType.NONPAGED : Nat := 2

/-- Modelled from the spec: the FREE flag of the pool scanner PoolType bitset. -/
def PoolType.FREE : Nat := 4

/-- Modelled from the spec: constants.BANG, the separator placed between a symbol
table name and a type name (the constants module is outside the plugin file). -/
def BANG : String := "!"

/-- A pool constraint as built by the plugin: pool tag, full type name, a size
interval whose upper bound may be absent, and the pool page-type flag bitset. -/
structure PoolConstraint where
  tag : String
  type_name : String
  size : Nat × Option Nat
  page_type : Nat
  deriving DecidableEq

/-- The part of the context consulted by create_netscan_constraints: the size of a
named type in the symbol space. -/
structure SymbolSpace where
  typeSize : String → Nat

/-- Shallow embedding of NetScan.create_netscan_constraints: three constraints, one
per record kind, each with the exact structure size as lower bound, no upper bound,
and NONPAGED or FREE pool pages admitted. -/
def create_netscan_constraints (ctx : SymbolSpace) (symbol_table : String) :
    List PoolConstraint :=
  let tcpl_size := ctx.typeSize (symbol_table ++ BANG ++ "_TCP_LISTENER")
  let tcpe_size := ctx.typeSize (symbol_table ++ BANG ++ "_TCP_ENDPOINT")
  let udpa_size := ctx.typeSize (symbol_table ++ BANG ++ "_UDP_ENDPOINT")
  [ { tag := "TcpL",
      type_name := symbol_table ++ BANG ++ "_TCP_LISTENER",
      size := (tcpl_size, none),
      page_type := PoolType.NONPAGED ||| PoolType.FREE },
    { tag := "TcpE",
      type_name := symbol_table ++ BANG ++ "_TCP_ENDPOINT",
      size := (tcpe_size, none),
      page_type := PoolType.NONPAGED ||| PoolType.FREE },
    { tag := "UdpA",
      type_name := symbol_table ++ BANG ++ "_UDP_ENDPOINT",
      size := (udpa_size, none),
      page_type := PoolType.NONPAGED ||| PoolType.FREE } ]

/-- Modelled from the spec: AF_INET from the network symbol extensions (outside the
plugin file). -/
def AF_INET : Nat := 2

/-- Modelled from the spec: AF_INET6 from the network symbol extensions. -/
def AF_INET6 : Nat := 23

/-- Modelled from the spec: the enumerated TCP state-code table TCP_STATE_ENUM of
the network symbol extensions (outside the plugin file); the claims depend only on
membership in the table. -/
def TCP_STATE_ENUM : Nat → Option String
  | 0 => some "CLOSED"
  | 1 => some "LISTENING"
  | 2 => some "SYN_SENT"
  | 3 => some "SYN_RCVD"
  | 4 => some "ESTABLISHED"
  | 5 => some "FIN_WAIT1"
  | 6 => some "FIN_WAIT2"
  | 7 => some "CLOSE_WAIT"
  | 8 => some "CLOSING"
  | 9 => some "LAST_ACK"
  | 12 => some "TIME_WAIT"
  | 13 => some "DELETE_TCB"
  | _ => none

/-- The dynamic class of a scanned object, as produced by the pool scanner from the
constraint that matched. `other` stands for any class outside the three network
record classes. -/
inductive NetwClass
  | udpEndpoint
  | tcpEndpoint
  | tcpListener
  | other
  deriving DecidableEq

/-- Modelled from the spec: isinstance(obj, network._UDP_ENDPOINT). -/
def isinstance_UDP_ENDPOINT : NetwClass → Bool
  | NetwClass.udpEndpoint => true
  | _ => false

/-- Modelled from the spec: isinstance(obj, network._TCP_ENDPOINT). -/
def isinstance_TCP_ENDPOINT : NetwClass → Bool
  | NetwClass.tcpEndpoint => true
  | _ => false

/-- Modelled from the spec: isinstance(obj, network._TCP_LISTENER). Per the source
comment at line 273 both endpoint classes inherit from _TCP_LISTENER, so both are
instances of it as well. -/
def isinstance_TCP_LISTENER : NetwClass → Bool
  | NetwClass.udpEndpoint => true
  | NetwClass.tcpEndpoint => true
  | NetwClass.tcpListener => true
  | NetwClass.other => false

/-- A scanned network object as consumed by the generator: its class, offset, the
result of its validity check, and the accessor results the generator reads. Option
none stands for a Python None return of the accessor. -/
structure NetwObject where
  cls : NetwClass
  offset : Nat
  valid : Bool
  port : Nat
  localPort : Nat
  remotePort : Nat
  addressFamily : Nat
  state : Nat
  localAddress : Option String
  remoteAddress : Option String
  ownerPid : Option Nat
  ownerProcname : Option String
  createTime : Option Nat
  dualStack : Bool
  localAddrV4 : String
  localAddrV6 : String
  deriving DecidableEq

/-- Modelled from the spec: dual_stack_sockets of the network symbol extensions
(outside the plugin file). Yields (version, local address, remote address) triples:
a dual-stack object yields one triple per address family; otherwise a single triple
for the objects own family. The remote component is the family wildcard address. -/
def dual_stack_sockets (o : NetwObject) : List (String × String × String) :=
  if o.dualStack then
    [("v4", o.localAddrV4, "0.0.0.0"), ("v6", o.localAddrV6, "::")]
  else if o.addressFamily = AF_INET then
    [("v4", o.localAddrV4, "0.0.0.0")]
  else
    [("v6", o.localAddrV6, "::")]

/-- A rendered field: either a value or the renderers.UnreadableValue marker. -/
inductive RField (α : Type)
  | val (a : α)
  | unreadable
  deriving DecidableEq

/-- Python `x or renderers.UnreadableValue()` for an integer-returning accessor:
None and 0 are falsy. -/
def orUnreadableNat : Option Nat → RField Nat
  | none => RField.unreadable
  | some 0 => RField.unreadable
  | some n => RField.val n

/-- Python `x or renderers.UnreadableValue()` for a string-returning accessor:
None and the empty string are falsy. -/
def orUnreadableStr : Option String → RField String
  | none => RField.unreadable
  | some s => if s = "" then RField.unreadable else RField.val s

/-- One row yielded by NetScan._generator, with the columns of the TreeGrid in run. -/
structure Row where
  offset : Nat
  proto : String
  localAddr : RField String
  localPort : Nat
  remoteAddr : RField String
  remotePort : Nat
  state : RField String
  pid : RField Nat
  owner : RField String
  created : RField Nat
  deriving DecidableEq

/-- The per-object body of NetScan._generator after the strict-mode validity check:
the isinstance dispatch (UDP endpoint first, then TCP endpoint, TCP listener last)
and the rows each branch yields. An object matching none of the three classes is
logged and yields nothing. -/
def classifyRows (o : NetwObject) : List Row :=
  if isinstance_UDP_ENDPOINT o.cls then
    (dual_stack_sockets o).map (fun t =>
      { offset := o.offset,
        proto := "UDP" ++ t.1,
        localAddr := RField.val t.2.1,
        localPort := o.port,
        remoteAddr := RField.val "*",
        remotePort := 0,
        state := RField.val "",
        pid := orUnreadableNat o.ownerPid,
        owner := orUnreadableStr o.ownerProcname,
        created := orUnreadableNat o.createTime })
  else if isinstance_TCP_ENDPOINT o.cls then
    [ { offset := o.offset,
        proto :=
          if o.addressFamily = AF_INET then "TCPv4"
          else if o.addressFamily = AF_INET6 then "TCPv6"
          else "TCPv?",
        localAddr := orUnreadableStr o.localAddress,
        localPort := o.localPort,
        remoteAddr := orUnreadableStr o.remoteAddress,
        remotePort := o.remotePort,
        state :=
          match TCP_STATE_ENUM o.state with
          | some s => RField.val s
          | none => RField.unreadable,
        pid := orUnreadableNat o.ownerPid,
        owner := orUnreadableStr o.ownerProcname,
        created := orUnreadableNat o.createTime } ]
  else if isinstance_TCP_LISTENER o.cls then
    (dual_stack_sockets o).map (fun t =>
      { offset := o.offset,
        proto := "TCP" ++ t.1,
        localAddr := RField.val t.2.1,
        localPort := o.port,
        remoteAddr := RField.val t.2.2,
        remotePort := 0,
        state := RField.val "LISTENING",
        pid := orUnreadableNat o.ownerPid,
        owner := orUnreadableStr o.ownerProcname,
        created := orUnreadableNat o.createTime })
  else
    []

/-- The classification outcome of the isinstance chain, with the order of the
branches in NetScan._generator preserved. -/
inductive Classified
  | udpEndpoint
  | tcpEndpoint
  | tcpListener
  | discarded
  deriving DecidableEq

/-- Which branch of the isinstance chain an object of the given class reaches. -/
def classify (c : NetwClass) : Classified :=
  if isinstance_UDP_ENDPOINT c then Classified.udpEndpoint
  else if isinstance_TCP_ENDPOINT c then Classified.tcpEndpoint
  else if isinstance_TCP_LISTENER c then Classified.tcpListener
  else Classified.discarded

/-- CORRUPT_DEFAULT of the plugin: the default of the include-corrupt option. -/
def CORRUPT_DEFAULT : Bool := false

/-- Shallow embedding of the loop of NetScan._generator over the scanned objects:
with the corruption flag off, an object failing its validity check is skipped with
continue; otherwise the object is dispatched through the isinstance chain. -/
def generator (show_corrupt_results : Bool) : List NetwObject → List Row
  | [] => []
  | o :: rest =>
      (if !show_corrupt_results && !o.valid then [] else classifyRows o)
        ++ generator show_corrupt_results rest

/-- C1: determine_tcpip_version reproduces the version decision table exactly: for
major 10, build below 14393 gives the per-architecture win10 name, build in
[14393, 15063) gives the win10 x64 name on x64 and the distinct 14393-x86 name on
x86, and build at least 15063 gives the shared 15063 per-architecture name; for
major 6, minor 0/1/2/3 give the vista/win7/win8/win81 names (in particular major 6,
minor 1 on x64 gives the win7 x64 name). -/
theorem c1_version_decision_table (is64 : Bool) (build minor : Nat) :
    (build < 14393 →
      determine_tcpip_version is64 true build 10 minor =
        Except.ok ("netscan-win10-" ++ archOf is64,
          if is64 then ClassTypes.win10x64 else ClassTypes.general)) ∧
    (14393 ≤ build → build < 15063 → is64 = true →
      determine_tcpip_version is64 true build 10 minor =
        Except.ok ("netscan-win10-x64", ClassTypes.win10x64)) ∧
    (14393 ≤ build → build < 15063 → is64 = false →
      determine_tcpip_version is64 true build 10 minor =
        Except.ok ("netscan-win10-14393-x86", ClassTypes.general)) ∧
    (15063 ≤ build →
      determine_tcpip_version is64 true build 10 minor =
        Except.ok ("netscan-win10-15063-" ++ archOf is64,
          if is64 then ClassTypes.win10x64 else ClassTypes.general)) ∧
    (determine_tcpip_version is64 true build 6 0 =
      Except.ok ("netscan-vista-" ++ archOf is64, ClassTypes.general)) ∧
    (determine_tcpip_version is64 true build 6 1 =
      Except.ok ("netscan-win7-" ++ archOf is64, ClassTypes.general)) ∧
    (determine_tcpip_version is64 true build 6 2 =
      Except.ok ("netscan-win8-" ++ archOf is64, ClassTypes.general)) ∧
    (determine_tcpip_version is64 true build 6 3 =
      Except.ok ("netscan-win81-" ++ archOf is64, ClassTypes.general)) := by
  cases is64 <;>
    refine ⟨fun h1 => ?_, fun h1 h2 h3 => ?_, fun h1 h2 h3 => ?_, fun h1 => ?_, rfl, rfl, rfl, rfl⟩
  · simp [determine_tcpip_version, archOf, h1]
  · exact absurd h3 (by decide)
  · have hn : ¬ build < 14393 := Nat.not_lt.mpr h1
    simp [determine_tcpip_version, archOf, hn, h2]
  · have hn : ¬ build < 14393 := by omega
    have hn2 : ¬ build < 15063 := Nat.not_lt.mpr h1
    simp [determine_tcpip_version, archOf, hn, hn2]
  · simp [determine_tcpip_version, archOf, h1]
  · have hn : ¬ build < 14393 := Nat.not_lt.mpr h1
    simp [determine_tcpip_version, archOf, hn, h2]
  · exact absurd h3 (by decide)
  · have hn : ¬ build < 14393 := by omega
    have hn2 : ¬ build < 15063 := Nat.not_lt.mpr h1
    simp [determine_tcpip_version, archOf, hn, hn2]

/-- C1 witness: a win7 x64 profile resolves to the win7 x64 layout name, through the
decision-table theorem at a concrete input. -/
theorem c1_version_decision_table_witness :
    10000 < 14393 ∧
    determine_tcpip_version true true 10000 10 0 =
      Except.ok ("netscan-win10-x64", ClassTypes.win10x64) :=
  ⟨by omega, by simpa [archOf] using (c1_version_decision_table true 10000 0).1 (by omega)⟩

/-- C2: on a profile whose major version is neither 6 nor 10 (here major 5, an XP
era image, build 2600, x64, intel layer), the fallback branch is reached and raises
NameError, because line 172 formats with the undefined variable major_version; no
fallback layout name is ever returned. -/
theorem c2_fallback_raises_nameerror :
    determine_tcpip_version true true 2600 5 1 = Except.error PyError.nameError := rfl

/-- C8: create_netscan_constraints returns exactly three constraints, one per record
kind with tags TcpL, TcpE, UdpA, each with the exact structure size from the symbol
space as lower bound and no upper bound, and with pool flags admitting both the
non-paged and the free pool. -/
theorem c8_constraints_shape (ctx : SymbolSpace) (symbol_table : String) :
    (create_netscan_constraints ctx symbol_table).length = 3 ∧
    (create_netscan_constraints ctx symbol_table).map PoolConstraint.tag =
      ["TcpL", "TcpE", "UdpA"] ∧
    (create_netscan_constraints ctx symbol_table).map PoolConstraint.size =
      [(ctx.typeSize (symbol_table ++ BANG ++ "_TCP_LISTENER"), none),
       (ctx.typeSize (symbol_table ++ BANG ++ "_TCP_ENDPOINT"), none),
       (ctx.typeSize (symbol_table ++ BANG ++ "_UDP_ENDPOINT"), none)] ∧
    (create_netscan_constraints ctx symbol_table).map PoolConstraint.page_type =
      [PoolType.NONPAGED ||| PoolType.FREE, PoolType.NONPAGED ||| PoolType.FREE,
       PoolType.NONPAGED ||| PoolType.FREE] ∧
    (PoolType.NONPAGED ||| PoolType.FREE) &&& PoolType.NONPAGED ≠ 0 ∧
    (PoolType.NONPAGED ||| PoolType.FREE) &&& PoolType.FREE ≠ 0 :=
  ⟨rfl, rfl, rfl, rfl, by decide, by decide⟩

/-- Modelled from the spec: the number of valid TCP-endpoint type-tags in each
class-type table of the network symbol extensions (outside the plugin file); the
win10 x64 table carries exactly one extra valid TCP-endpoint tag. -/
def tcpEndpointTagCount : ClassTypes → Nat
  | ClassTypes.general => 1
  | ClassTypes.win10x64 => 2

/-- Every row of every branch renders the three owner fields with the Python
`accessor or UnreadableValue()` pattern. -/
theorem mem_classifyRows_owner_fields (o : NetwObject) (r : Row)
    (hr : r ∈ classifyRows o) :
    r.pid = orUnreadableNat o.ownerPid ∧ r.owner = orUnreadableStr o.ownerProcname ∧
    r.created = orUnreadableNat o.createTime := by
  simp only [classifyRows] at hr
  split at hr
  · rw [List.mem_map] at hr
    obtain ⟨t, ht, hf⟩ := hr
    subst hf
    exact ⟨rfl, rfl, rfl⟩
  · split at hr
    · rw [List.mem_singleton] at hr
      subst hr
      exact ⟨rfl, rfl, rfl⟩
    · split at hr
      · rw [List.mem_map] at hr
        obtain ⟨t, ht, hf⟩ := hr
        subst hf
        exact ⟨rfl, rfl, rfl⟩
      · simp at hr

/-- C3: the isinstance chain tests the UDP endpoint shape first, then the TCP
endpoint shape, then the TCP listener shape last; both endpoint classes are also
instances of the listener class, yet a true TCP endpoint is never classified as a
listener, and an object matching none of the three shapes is discarded with no rows
and no error. -/
theorem c3_classification_order (o : NetwObject) :
    (isinstance_TCP_LISTENER NetwClass.tcpEndpoint = true ∧
      isinstance_TCP_LISTENER NetwClass.udpEndpoint = true) ∧
    (o.cls = NetwClass.udpEndpoint → classify o.cls = Classified.udpEndpoint) ∧
    (o.cls = NetwClass.tcpEndpoint → classify o.cls = Classified.tcpEndpoint) ∧
    (classify o.cls = Classified.tcpListener →
      isinstance_TCP_ENDPOINT o.cls = false ∧ isinstance_UDP_ENDPOINT o.cls = false) ∧
    (classify o.cls = Classified.discarded → classifyRows o = []) := by
  cases hc : o.cls <;>
    refine ⟨⟨rfl, rfl⟩, fun h => ?_, fun h => ?_, fun h => ?_, fun h => ?_⟩ <;>
    simp_all [classify, classifyRows, isinstance_UDP_ENDPOINT, isinstance_TCP_ENDPOINT,
      isinstance_TCP_LISTENER]

/-- C4: with the corruption flag off (the default, CORRUPT_DEFAULT = false) an
object failing its validity check is silently dropped and scanning continues, a
valid one is processed; with the flag on, the validity check is skipped entirely:
every object, valid or not, is dispatched to the isinstance chain. -/
theorem c4_corruption_flag (o : NetwObject) (objs : List NetwObject) :
    CORRUPT_DEFAULT = false ∧
    (o.valid = false → generator false (o :: objs) = generator false objs) ∧
    (o.valid = true → generator false (o :: objs) = classifyRows o ++ generator false objs) ∧
    (generator true (o :: objs) = classifyRows o ++ generator true objs) := by
  refine ⟨rfl, fun h => ?_, fun h => ?_, ?_⟩
  · simp [generator, h]
  · simp [generator, h]
  · simp [generator]

/-- C5: every row emitted for a UDP endpoint has a blank state, the wildcard marker
as remote address, and remote port 0. -/
theorem c5_udp_rows_blank (o : NetwObject) (h : o.cls = NetwClass.udpEndpoint)
    (r : Row) (hr : r ∈ classifyRows o) :
    r.state = RField.val "" ∧ r.remoteAddr = RField.val "*" ∧ r.remotePort = 0 := by
  have h1 : isinstance_UDP_ENDPOINT o.cls = true := by
    simp [h, isinstance_UDP_ENDPOINT]
  simp only [classifyRows] at hr
  rw [h1] at hr
  simp only [if_true, eq_self_iff_true] at hr
  rw [List.mem_map] at hr
  obtain ⟨t, ht, hf⟩ := hr
  subst hf
  exact ⟨rfl, rfl, rfl⟩

/-- C6: a TCP endpoint row carries protocol TCPv4 for address family AF_INET, TCPv6
for AF_INET6, and the sentinel TCPv? for any other family; and a state code outside
the enumerated state table is rendered as the unreadable marker, never as the empty
string. -/
theorem c6_tcp_endpoint_proto_state (o : NetwObject)
    (h : o.cls = NetwClass.tcpEndpoint) (r : Row) (hr : r ∈ classifyRows o) :
    (o.addressFamily = AF_INET → r.proto = "TCPv4") ∧
    (o.addressFamily = AF_INET6 → r.proto = "TCPv6") ∧
    (o.addressFamily ≠ AF_INET → o.addressFamily ≠ AF_INET6 → r.proto = "TCPv?") ∧
    (TCP_STATE_ENUM o.state = none →
      r.state = RField.unreadable ∧ r.state ≠ RField.val "") := by
  have h1 : isinstance_UDP_ENDPOINT o.cls = false := by
    simp [h, isinstance_UDP_ENDPOINT]
  have h2 : isinstance_TCP_ENDPOINT o.cls = true := by
    simp [h, isinstance_TCP_ENDPOINT]
  simp only [classifyRows] at hr
  rw [h1, h2] at hr
  simp only [Bool.false_eq_true, if_false, if_true, eq_self_iff_true,
    List.mem_singleton] at hr
  subst hr
  refine ⟨fun ha => ?_, fun ha => ?_, fun ha hb => ?_, fun hs => ⟨?_, ?_⟩⟩
  · simp [ha]
  · simp [ha, AF_INET, AF_INET6]
  · simp [ha, hb]
  · simp [hs]
  · simp [hs]

/-- C7: every row emitted for a TCP listener has state LISTENING and remote port 0;
and a dual-stack UDP endpoint or TCP listener yields exactly two rows sharing the
port, state, owner, timestamp, offset and remote-port fields and carrying distinct
protocols. -/
theorem c7_listener_and_dual_stack (o : NetwObject) :
    (o.cls = NetwClass.tcpListener → ∀ r ∈ classifyRows o,
      r.state = RField.val "LISTENING" ∧ r.remotePort = 0) ∧
    (o.dualStack = true →
      (o.cls = NetwClass.udpEndpoint ∨ o.cls = NetwClass.tcpListener) →
      ∃ r1 r2 : Row, classifyRows o = [r1, r2] ∧
        r1.localPort = r2.localPort ∧ r1.state = r2.state ∧ r1.pid = r2.pid ∧
        r1.owner = r2.owner ∧ r1.created = r2.created ∧ r1.offset = r2.offset ∧
        r1.remotePort = r2.remotePort ∧ r1.proto ≠ r2.proto) := by
  constructor
  · intro h r hr
    have h1 : isinstance_UDP_ENDPOINT o.cls = false := by
      simp [h, isinstance_UDP_ENDPOINT]
    have h2 : isinstance_TCP_ENDPOINT o.cls = false := by
      simp [h, isinstance_TCP_ENDPOINT]
    have h3 : isinstance_TCP_LISTENER o.cls = true := by
      simp [h, isinstance_TCP_LISTENER]
    simp only [classifyRows] at hr
    rw [h1, h2, h3] at hr
    simp only [Bool.false_eq_true, if_false, if_true, eq_self_iff_true] at hr
    rw [List.mem_map] at hr
    obtain ⟨t, ht, hf⟩ := hr
    subst hf
    exact ⟨rfl, rfl⟩
  · intro hd hcls
    have hds : dual_stack_sockets o =
        [("v4", o.localAddrV4, "0.0.0.0"), ("v6", o.localAddrV6, "::")] := by
      simp [dual_stack_sockets, hd]
    rcases hcls with h | h
    · have h1 : isinstance_UDP_ENDPOINT o.cls = true := by
        simp [h, isinstance_UDP_ENDPOINT]
      have hrows : classifyRows o =
          [{ offset := o.offset, proto := "UDP" ++ "v4",
             localAddr := RField.val o.localAddrV4, localPort := o.port,
             remoteAddr := RField.val "*", remotePort := 0, state := RField.val "",
             pid := orUnreadableNat o.ownerPid, owner := orUnreadableStr o.ownerProcname,
             created := orUnreadableNat o.createTime },
           { offset := o.offset, proto := "UDP" ++ "v6",
             localAddr := RField.val o.localAddrV6, localPort := o.port,
             remoteAddr := RField.val "*", remotePort := 0, state := RField.val "",
             pid := orUnreadableNat o.ownerPid, owner := orUnreadableStr o.ownerProcname,
             created := orUnreadableNat o.createTime }] := by
        simp only [classifyRows]
        rw [h1, hds]
        rfl
      exact ⟨_, _, hrows, rfl, rfl, rfl, rfl, rfl, rfl, rfl,
        by show "UDP" ++ "v4" ≠ "UDP" ++ "v6"; decide⟩
    · have h1 : isinstance_UDP_ENDPOINT o.cls = false := by
        simp [h, isinstance_UDP_ENDPOINT]
      have h2 : isinstance_TCP_ENDPOINT o.cls = false := by
        simp [h, isinstance_TCP_ENDPOINT]
      have h3 : isinstance_TCP_LISTENER o.cls = true := by
        simp [h, isinstance_TCP_LISTENER]
      have hrows : classifyRows o =
          [{ offset := o.offset, proto := "TCP" ++ "v4",
             localAddr := RField.val o.localAddrV4, localPort := o.port,
             remoteAddr := RField.val "0.0.0.0", remotePort := 0,
             state := RField.val "LISTENING",
             pid := orUnreadableNat o.ownerPid, owner := orUnreadableStr o.ownerProcname,
             created := orUnreadableNat o.createTime },
           { offset := o.offset, proto := "TCP" ++ "v6",
             localAddr := RField.val o.localAddrV6, localPort := o.port,
             remoteAddr := RField.val "::", remotePort := 0,
             state := RField.val "LISTENING",
             pid := orUnreadableNat o.ownerPid, owner := orUnreadableStr o.ownerProcname,
             created := orUnreadableNat o.createTime }] := by
        simp only [classifyRows]
        rw [h1, h2, h3, hds]
        rfl
      exact ⟨_, _, hrows, rfl, rfl, rfl, rfl, rfl, rfl, rfl,
        by show "TCP" ++ "v4" ≠ "TCP" ++ "v6"; decide⟩

/-- C9: the extended class-type table (with one extra valid TCP-endpoint tag) is
selected by determine_tcpip_version exactly for major version 10 on x64, and for no
other major/architecture combination among the resolvable profiles. -/
theorem c9_extended_tagset (is64 : Bool) (build major minor : Nat) (fn : String)
    (ct : ClassTypes)
    (h : determine_tcpip_version is64 true build major minor = Except.ok (fn, ct)) :
    (ct = ClassTypes.win10x64 ↔ major = 10 ∧ is64 = true) ∧
    tcpEndpointTagCount ClassTypes.win10x64 = tcpEndpointTagCount ClassTypes.general + 1 := by
  refine ⟨?_, rfl⟩
  cases is64 <;> simp only [determine_tcpip_version, archOf] at h <;>
    split_ifs at h
  all_goals
    try (simp only [Except.ok.injEq, Prod.mk.injEq] at h; rcases h with ⟨-, rfl⟩)
  all_goals simp_all

/-- C10: across all three record kinds, an owner pid, owner process name, or
creation time accessor returning a falsy value (None, 0, or the empty string) makes
the corresponding output field the unreadable marker; a legitimately zero pid or
empty name is therefore indistinguishable from an unreadable one. -/
theorem c10_falsy_owner_fields (o : NetwObject) (r : Row) (hr : r ∈ classifyRows o) :
    ((o.ownerPid = none ∨ o.ownerPid = some 0) → r.pid = RField.unreadable) ∧
    ((o.ownerProcname = none ∨ o.ownerProcname = some "") → r.owner = RField.unreadable) ∧
    ((o.createTime = none ∨ o.createTime = some 0) → r.created = RField.unreadable) ∧
    orUnreadableNat (some 0) = orUnreadableNat none ∧
    orUnreadableStr (some "") = orUnreadableStr none := by
  obtain ⟨hp, ho, hc⟩ := mem_classifyRows_owner_fields o r hr
  refine ⟨fun h => ?_, fun h => ?_, fun h => ?_, rfl, by simp [orUnreadableStr]⟩
  · rcases h with h | h <;> simp [hp, h, orUnreadableNat]
  · rcases h with h | h <;> simp [ho, h, orUnreadableStr]
  · rcases h with h | h <;> simp [hc, h, orUnreadableNat]

/-- A concrete TCP endpoint object: AF_INET family, state code 255 outside the
state table. -/
def exTcpEObj : NetwObject :=
  { cls := NetwClass.tcpEndpoint, offset := 4096, valid := true, port := 0,
    localPort := 445, remotePort := 49152, addressFamily := 2, state := 255,
    localAddress := some "192.168.1.2", remoteAddress := some "192.168.1.9",
    ownerPid := some 4, ownerProcname := some "System", createTime := some 1,
    dualStack := false, localAddrV4 := "192.168.1.2", localAddrV6 := "::1" }

/-- The row the generator emits for exTcpEObj. -/
def exTcpERow : Row :=
  { offset := 4096, proto := "TCPv4", localAddr := RField.val "192.168.1.2",
    localPort := 445, remoteAddr := RField.val "192.168.1.9", remotePort := 49152,
    state := RField.unreadable, pid := RField.val 4, owner := RField.val "System",
    created := RField.val 1 }

/-- A concrete dual-stack UDP endpoint object with falsy owner accessors. -/
def exUdpObj : NetwObject :=
  { cls := NetwClass.udpEndpoint, offset := 8192, valid := true, port := 53,
    localPort := 53, remotePort := 0, addressFamily := 2, state := 0,
    localAddress := some "0.0.0.0", remoteAddress := none, ownerPid := some 0,
    ownerProcname := some "", createTime := none, dualStack := true,
    localAddrV4 := "0.0.0.0", localAddrV6 := "::" }

/-- The first row the generator emits for exUdpObj. -/
def exUdpRow : Row :=
  { offset := 8192, proto := "UDP" ++ "v4", localAddr := RField.val "0.0.0.0",
    localPort := 53, remoteAddr := RField.val "*", remotePort := 0,
    state := RField.val "", pid := RField.unreadable, owner := RField.unreadable,
    created := RField.unreadable }

/-- A concrete dual-stack TCP listener object. -/
def exListenerObj : NetwObject :=
  { cls := NetwClass.tcpListener, offset := 12288, valid := true, port := 80,
    localPort := 80, remotePort := 0, addressFamily := 2, state := 1,
    localAddress := some "0.0.0.0", remoteAddress := none, ownerPid := some 400,
    ownerProcname := some "httpd", createTime := some 5, dualStack := true,
    localAddrV4 := "0.0.0.0", localAddrV6 := "::" }

/-- The first row the generator emits for exListenerObj. -/
def exListenerRow1 : Row :=
  { offset := 12288, proto := "TCP" ++ "v4", localAddr := RField.val "0.0.0.0",
    localPort := 80, remoteAddr := RField.val "0.0.0.0", remotePort := 0,
    state := RField.val "LISTENING", pid := RField.val 400,
    owner := RField.val "httpd", created := RField.val 5 }

/-- The second row the generator emits for exListenerRow1. -/
def exListenerRow2 : Row :=
  { offset := 12288, proto := "TCP" ++ "v6", localAddr := RField.val "::",
    localPort := 80, remoteAddr := RField.val "::", remotePort := 0,
    state := RField.val "LISTENING", pid := RField.val 400,
    owner := RField.val "httpd", created := RField.val 5 }

/-- A concrete object whose validity check fails. -/
def exInvalidObj : NetwObject :=
  { cls := NetwClass.udpEndpoint, offset := 1, valid := false, port := 1,
    localPort := 1, remotePort := 0, addressFamily := 2, state := 0,
    localAddress := none, remoteAddress := none, ownerPid := none,
    ownerProcname := none, createTime := none, dualStack := false,
    localAddrV4 := "0.0.0.0", localAddrV6 := "::" }

/-- C3 witness: a TCP endpoint is classified as a TCP endpoint even though it is
also an instance of the listener class. -/
theorem c3_classification_order_witness :
    classify NetwClass.tcpEndpoint = Classified.tcpEndpoint ∧
    isinstance_TCP_LISTENER NetwClass.tcpEndpoint = true :=
  ⟨(c3_classification_order exTcpEObj).2.2.1 rfl, (c3_classification_order exTcpEObj).1.1⟩

/-- C4 witness: an invalid object is dropped in strict mode. -/
theorem c4_corruption_flag_witness :
    exInvalidObj.valid = false ∧
    generator false [exInvalidObj] = generator false [] :=
  ⟨rfl, (c4_corruption_flag exInvalidObj []).2.1 rfl⟩

/-- C5 witness: the first row of the concrete UDP endpoint has blank state, wildcard
remote address and remote port 0. -/
theorem c5_udp_rows_blank_witness :
    exUdpRow ∈ classifyRows exUdpObj ∧
    (exUdpRow.state = RField.val "" ∧ exUdpRow.remoteAddr = RField.val "*" ∧
      exUdpRow.remotePort = 0) :=
  ⟨by decide, c5_udp_rows_blank exUdpObj rfl exUdpRow (by decide)⟩

/-- C6 witness: the concrete AF_INET endpoint with state code 255 gets protocol
TCPv4 and the unreadable state marker. -/
theorem c6_tcp_endpoint_witness :
    exTcpERow ∈ classifyRows exTcpEObj ∧ exTcpERow.proto = "TCPv4" ∧
    exTcpERow.state = RField.unreadable :=
  ⟨by decide,
   (c6_tcp_endpoint_proto_state exTcpEObj rfl exTcpERow (by decide)).1 rfl,
   ((c6_tcp_endpoint_proto_state exTcpEObj rfl exTcpERow (by decide)).2.2.2 rfl).1⟩

/-- C7 witness: the concrete dual-stack listener yields exactly the two LISTENING
rows with distinct protocols. -/
theorem c7_listener_and_dual_stack_witness :
    classifyRows exListenerObj = [exListenerRow1, exListenerRow2] ∧
    (exListenerRow1.state = RField.val "LISTENING" ∧ exListenerRow1.remotePort = 0) ∧
    exListenerRow1.proto ≠ exListenerRow2.proto :=
  ⟨by decide,
   (c7_listener_and_dual_stack exListenerObj).1 rfl exListenerRow1 (by decide),
   by decide⟩

/-- C9 witness: a win10 build 19041 x64 profile selects the extended table, whose
TCP-endpoint tag count exceeds the general one by exactly one. -/
theorem c9_extended_tagset_witness :
    tcpEndpointTagCount ClassTypes.win10x64 = tcpEndpointTagCount ClassTypes.general + 1 :=
  (c9_extended_tagset true 19041 10 0 "netscan-win10-15063-x64" ClassTypes.win10x64
    rfl).2

/-- C10 witness: the concrete UDP endpoint with pid 0, empty owner name and missing
creation time renders all three owner fields as unreadable. -/
theorem c10_falsy_owner_fields_witness :
    exUdpRow ∈ classifyRows exUdpObj ∧ exUdpRow.pid = RField.unreadable ∧
    exUdpRow.owner = RField.unreadable ∧ exUdpRow.created = RField.unreadable :=
  ⟨by decide,
   (c10_falsy_owner_fields exUdpObj exUdpRow (by decide)).1 (Or.inr rfl),
   (c10_falsy_owner_fields exUdpObj exUdpRow (by decide)).2.1 (Or.inr rfl),
   (c10_falsy_owner_fields exUdpObj exUdpRow (by decide)).2.2.1 (Or.inl rfl)⟩

end NetscanSpec
